import Mathlib

/-!
Shallow embedding of the printer-connectivity core of BambuAgent
(`backend/app/services/bambu_service.py` and
`backend/app/services/printer_discovery.py`), together with theorems
settling the behavioural claims about discovery, the telemetry link and
job submission.
-/

namespace BambuAgent

/-! ### A model of decoded JSON values (the payloads handled by the service) -/

inductive Json where
  | null : Json
  | bool : Bool → Json
  | num : Int → Json
  | str : String → Json
  | arr : List Json → Json
  | obj : List (String × Json) → Json

/-- Field lookup in a decoded JSON object (first match wins, as in a Python
`dict` built from distinct keys). -/
def lookupField : List (String × Json) → String → Option Json
  | [], _ => none
  | (k, v) :: rest, key => if k = key then some v else lookupField rest key

/-- Python `x.get(key, default)`: succeeds with the field (or the default) when
`x` is a dict, raises `AttributeError` otherwise. -/
def pyGet (j : Json) (key : String) (default : Json) : Except Unit Json :=
  match j with
  | .obj fields => .ok ((lookupField fields key).getD default)
  | _ => .error ()

/-- Python truthiness of a decoded JSON value. -/
def pyTruthy : Json → Bool
  | .null => false
  | .bool b => b
  | .num n => n != 0
  | .str s => s != ""
  | .arr xs => !xs.isEmpty
  | .obj fs => !fs.isEmpty

/-- Python `==` between a decoded JSON value and a string literal: true exactly
for the equal string (a non-string value never equals a string). -/
def pyEqStr : Json → String → Bool
  | .str s, t => s == t
  | _, _ => false

/-- Total projection used only to state theorems: the value of field `key` of
`j` when `j` is a dict and has it, `default` otherwise. -/
def jsonField (j : Json) (key : String) (default : Json) : Json :=
  match j with
  | .obj fields => (lookupField fields key).getD default
  | _ => default

/-! ### Telemetry: `_get_printer_state` and `_update_printer_status` -/

/-- The branch cascade of `_get_printer_state` applied to the already-fetched
`gcode_state` value (`print_data.get("gcode_state", "")`). -/
def mapGcodeState (g : Json) : String :=
  if pyEqStr g "RUNNING" then "printing"
  else if pyEqStr g "PAUSE" then "paused"
  else if pyEqStr g "FINISH" then "finished"
  else if pyEqStr g "FAILED" then "failed"
  else "idle"

/-- `BambuService._get_printer_state(print_data)`. -/
def getPrinterState (printData : Json) : Except Unit String := do
  let g ← pyGet printData "gcode_state" (.str "")
  return mapGcodeState g

structure CurrentJob where
  name : Json
  layer : Json
  total_layers : Json

/-- The dict built by `_update_printer_status` (the `last_updated` wall-clock
stamp is left out of the model). -/
structure Snapshot where
  status : String
  progress : Json
  bed_temp : Json
  nozzle_temp : Json
  current_job : Option CurrentJob

/-- The construction of the new `printer_status` dict inside
`_update_printer_status`, field initialisers evaluated in source order; any
raising field access aborts the whole construction. -/
def buildStatus (payload : Json) : Except Unit Snapshot := do
  let printData ← pyGet payload "print" (.obj [])
  let _systemData ← pyGet payload "system" (.obj [])
  let status ← getPrinterState printData
  let progress ← pyGet printData "mc_percent" (.num 0)
  let bed ← pyGet printData "bed_temper" (.num 0)
  let nozzle ← pyGet printData "nozzle_temper" (.num 0)
  let subtask ← pyGet printData "subtask_name" (.str "")
  let job ←
    if pyTruthy subtask then do
      let nm ← pyGet printData "subtask_name" (.str "")
      let layer ← pyGet printData "layer_num" (.num 0)
      let total ← pyGet printData "total_layer_num" (.num 0)
      pure (some ⟨nm, layer, total⟩)
    else
      pure none
  return { status := status, progress := progress, bed_temp := bed,
           nozzle_temp := nozzle, current_job := job }

/-- The Telemetry Cache: either the constructor's initial
`{"status": "unknown"}` entry or a full snapshot. -/
inductive Cache where
  | initial : Cache
  | snap : Snapshot → Cache

/-- The `"status"` field of the cached dict (`"unknown"` initially). -/
def cacheStatus : Cache → String
  | .initial => "unknown"
  | .snap s => s.status

/-- `BambuService._update_printer_status`: the new dict replaces the cache
wholesale; any exception during construction is caught and logged, leaving the
cache untouched. -/
def updatePrinterStatus (cur : Cache) (payload : Json) : Cache :=
  match buildStatus payload with
  | .ok s => .snap s
  | .error _ => cur

def listPrefixOf : List Char → List Char → Bool
  | [], _ => true
  | _ :: _, [] => false
  | a :: as, b :: bs => a == b && listPrefixOf as bs

def listInfixOf (needle : List Char) : List Char → Bool
  | [] => listPrefixOf needle []
  | c :: rest => listPrefixOf needle (c :: rest) || listInfixOf needle rest

/-- Substring test (`needle in hay` on Python strings). -/
def strContains (hay needle : String) : Bool :=
  listInfixOf needle.toList hay.toList

/-- `BambuService._on_mqtt_message`: `decoded` is the result of
`json.loads(msg.payload.decode())` (`none` when decoding raises); the outer
`try` absorbs every exception, so the handler is total and the link stays up. -/
def onMqttMessage (cur : Cache) (topic : String) (decoded : Option Json) : Cache :=
  match decoded with
  | none => cur
  | some payload =>
      if strContains topic "report" then updatePrinterStatus cur payload else cur

/-! ### The Device Link and Job Submitter: `BambuService` -/

/-- Exceptions raised by the service, by raise site. -/
inductive PyErr where
  | fileNotFound        -- "File not found: ..."
  | notConfigured       -- "Printer IP or access code not configured"
  | uploadFailed        -- "Failed to upload file: ..."
  | couldNotConnectMqtt -- "Could not connect to MQTT"
deriving DecidableEq

/-- The `paho` client object held in `self.mqtt_client`; `connected` records
whether the broker session is actually up (connect succeeded and CONNACK
rc = 0). -/
structure MqttClient where
  connected : Bool
deriving DecidableEq

/-- The mutable fields of `BambuService` relevant to connection and
submission. -/
structure BambuState where
  printer_ip : Option String
  access_code : Option String
  device_serial : String
  mqtt_client : Option MqttClient
deriving DecidableEq

/-- Outcomes of the external calls during one execution (the oracle the
embedding is parametrised by). -/
structure Env where
  connectRaises : Bool -- `mqtt_client.connect(...)` raises
  connectRc : Nat      -- CONNACK return code delivered to `_on_mqtt_connect`
  uploadOk : Bool      -- the whole FTP connect/login/STOR sequence succeeds
  fileExists : Bool    -- `os.path.exists(file_path)`
deriving DecidableEq

/-- Externally visible actions, in order of occurrence. -/
inductive Event where
  | connectAttempt (host : String) (port : Nat)
  | subscribed (topic : String)
  | ftpUpload (host remoteName : String)
  | commandCall (filename : String)          -- `_send_print_command` entered
  | published (topic : String) (command : Json)

/-- Python `not self.printer_ip` / `not self.access_code`: the env var is
missing or empty. -/
def strFalsy : Option String → Bool
  | none => true
  | some s => s == ""

/-- `BambuService.connect_mqtt`. Returns the boolean result, the new state and
the trace. Note the source assigns `self.mqtt_client = mqtt.Client()` before
calling `connect`, so a raising connect leaves the (unconnected) client
stored. -/
def connectMqtt (st : BambuState) (env : Env) : Bool × BambuState × List Event :=
  if strFalsy st.printer_ip || strFalsy st.access_code then
    (false, st, [])
  else
    let st1 : BambuState := { st with mqtt_client := some { connected := false } }
    let ev := Event.connectAttempt (st.printer_ip.getD "") 8883
    if env.connectRaises then
      (false, st1, [ev])
    else if env.connectRc = 0 then
      -- `_on_mqtt_connect` fires with rc 0 during the 2-second wait: subscribed
      (true, { st1 with mqtt_client := some { connected := true } },
        [ev, .subscribed ("device/" ++ st.device_serial ++ "/report")])
    else
      -- broker refused (rc ≠ 0): only logged; `connect_mqtt` still returns True
      (true, st1, [ev])

/-- The command dict serialised by `_send_print_command`. -/
def printCommand (filename jobId : String) : Json :=
  .obj [("print", .obj
    [("command", .str "project_file"),
     ("param", .str (filename ++ ".3mf")),
     ("sequence_id", .str jobId),
     ("user_id", .str "BambuAgent")])]

/-- `BambuService._send_print_command`. Lazily calls `connect_mqtt` when no
client is stored (its boolean result is discarded by the source), raises only
when `self.mqtt_client` is still `None`, and otherwise publishes the command
to the request topic. -/
def sendPrintCommand (st : BambuState) (env : Env) (filename jobId : String) :
    Except PyErr Unit × BambuState × List Event :=
  let entry := [Event.commandCall filename]
  let (st1, tr1) :=
    match st.mqtt_client with
    | none =>
        let r := connectMqtt st env
        (r.2.1, entry ++ r.2.2)
    | some _ => (st, entry)
  match st1.mqtt_client with
  | none => (.error .couldNotConnectMqtt, st1, tr1)
  | some _ =>
      (.ok (), st1,
        tr1 ++ [.published ("device/" ++ st1.device_serial ++ "/request")
                  (printCommand filename jobId)])

/-- `BambuService._upload_file_ftp`: any failure in the FTP sequence is caught
and re-raised as the transfer error "Failed to upload file: ...". -/
def uploadFileFtp (st : BambuState) (env : Env) (remoteName : String) :
    Except PyErr Unit × List Event :=
  if env.uploadOk then
    (.ok (), [.ftpUpload (st.printer_ip.getD "") remoteName])
  else
    (.error .uploadFailed, [])

/-- `BambuService.send_print_job`: existence check, configuration check, FTP
upload, then the MQTT start command; the surrounding `try` only logs and
re-raises. `jobId` stands for the generated `uuid.uuid4()` value. -/
def sendPrintJob (st : BambuState) (env : Env)
    (_filePath printName jobId : String) :
    Except PyErr String × BambuState × List Event :=
  if !env.fileExists then
    (.error .fileNotFound, st, [])
  else if strFalsy st.printer_ip || strFalsy st.access_code then
    (.error .notConfigured, st, [])
  else
    match uploadFileFtp st env printName with
    | (.error e, tr) => (.error e, st, tr)
    | (.ok _, tr) =>
        match sendPrintCommand st env printName jobId with
        | (.error e, st2, tr2) => (.error e, st2, tr ++ tr2)
        | (.ok _, st2, tr2) => (.ok jobId, st2, tr ++ tr2)

/-! ### Discovery: `printer_discovery.py` -/

/-- `BambuPrinter` (the Device record). -/
structure BambuPrinter where
  name : String
  ip : String
  port : Nat
  model : String
deriving DecidableEq

/-- `self.id = f"{ip}:{port}"`. -/
def BambuPrinter.id (p : BambuPrinter) : String := p.ip ++ ":" ++ toString p.port

/-- The part of a zeroconf `ServiceInfo` the listener reads: addresses (already
rendered dotted-quad, abstracting `socket.inet_ntoa`), port, and the optional
TXT-property dict. -/
structure ServiceInfo where
  addresses : List String
  port : Nat
  properties : Option (List (String × String))

def lookupProp : List (String × String) → String → Option String
  | [], _ => none
  | (k, v) :: rest, key => if k = key then some v else lookupProp rest key

/-- One discovery event: either the passive mDNS listener's `add_service`
callback (with the `get_service_info` result, `none` when unavailable) or one
active `_check_bambu_printer` probe (with its TCP connect outcome). -/
inductive DiscEvent where
  | passive (name : String) (info : Option ServiceInfo)
  | active (ip : String) (port : Nat) (connectOk : Bool)

/-- The printer record an event contributes, before deduplication: `none` when
the event yields nothing (no service info, no address, failed probe). -/
def mkPrinter : DiscEvent → Option BambuPrinter
  | .passive name info =>
      match info with
      | none => none
      | some i =>
          match i.addresses with
          | [] => none
          | ip :: _ =>
              let printerName := (name.splitOn ".").headD ""
              let model :=
                match i.properties with
                | none => "Bambu A1 mini"
                | some props =>
                    let m := (lookupProp props "model").getD ""
                    if m = "" then "Bambu A1 mini" else m
              some { name := printerName, ip := ip, port := i.port, model := model }
  | .active ip port connectOk =>
      if connectOk then
        some { name := "Bambu-" ++ (ip.splitOn ".").getLastD "",
               ip := ip, port := port, model := "Bambu A1 mini" }
      else none

/-- The shared duplicate check and append
(`if not any(p.ip == printer.ip for p in self.printers): append`). -/
def addIfNew (printers : List BambuPrinter) (p : BambuPrinter) : List BambuPrinter :=
  if printers.any (fun q => q.ip == p.ip) then printers else printers ++ [p]

/-- Processing of one discovery event against the shared
`self.listener.printers` list. -/
def processEvent (printers : List BambuPrinter) (e : DiscEvent) : List BambuPrinter :=
  match mkPrinter e with
  | none => printers
  | some p => addIfNew printers p

/-- `discover_printers`: the list is cleared at the start of the run, then the
interleaved passive and active events are applied to it in arrival order; the
final list is returned. -/
def discoverPrinters (events : List DiscEvent) : List BambuPrinter :=
  events.foldl processEvent []

/-! ### The bounded-concurrency scan: `_scan_network_range` -/

/-- `asyncio.Semaphore(20)`. -/
def semaphoreLimit : Nat := 20

/-- State of the scan: coroutines not yet started, free semaphore permits, and
`_check_bambu_printer` calls started but not yet finished. Each `limited_scan`
wrapper acquires a permit, only then awaits (= starts) its check coroutine,
and releases the permit when the check returns. -/
structure ScanState where
  pending : Nat
  available : Nat
  inFlight : Nat
deriving DecidableEq

def initScanState (numTasks : Nat) : ScanState :=
  { pending := numTasks, available := semaphoreLimit, inFlight := 0 }

/-- Atomic steps of the scan's cooperative scheduler. -/
inductive ScanStep : ScanState → ScanState → Prop where
  | start (s : ScanState) : 0 < s.pending → 0 < s.available →
      ScanStep s { pending := s.pending - 1, available := s.available - 1,
                   inFlight := s.inFlight + 1 }
  | finish (s : ScanState) : 0 < s.inFlight →
      ScanStep s { pending := s.pending, available := s.available + 1,
                   inFlight := s.inFlight - 1 }

/-- States reachable during a scan over `n` (ip, port) candidates. -/
inductive ScanReachable (n : Nat) : ScanState → Prop where
  | init : ScanReachable n (initScanState n)
  | step {s t : ScanState} : ScanReachable n s → ScanStep s t → ScanReachable n t

/-! ### Reduction lemmas for the `Except` embedding -/

theorem ok_bind {α β ε : Type} (x : α) (f : α → Except ε β) :
    (Except.ok x : Except ε α) >>= f = f x := rfl

theorem error_bind {α β ε : Type} (e : ε) (f : α → Except ε β) :
    (Except.error e : Except ε α) >>= f = Except.error e := rfl

theorem pure_eq_ok {α ε : Type} (x : α) : (pure x : Except ε α) = .ok x := rfl

def Json.isObj : Json → Bool
  | .obj _ => true
  | _ => false

/-- The snapshot `_update_printer_status` builds from a dict `print` section
`l` (each field access on a dict succeeds, so the construction is total). -/
def mkSnap (l : List (String × Json)) : Snapshot :=
  { status := mapGcodeState ((lookupField l "gcode_state").getD (.str "")),
    progress := (lookupField l "mc_percent").getD (.num 0),
    bed_temp := (lookupField l "bed_temper").getD (.num 0),
    nozzle_temp := (lookupField l "nozzle_temper").getD (.num 0),
    current_job :=
      if pyTruthy ((lookupField l "subtask_name").getD (.str "")) then
        some ⟨(lookupField l "subtask_name").getD (.str ""),
              (lookupField l "layer_num").getD (.num 0),
              (lookupField l "total_layer_num").getD (.num 0)⟩
      else none }

theorem buildStatus_obj (fs l : List (String × Json))
    (hp : (lookupField fs "print").getD (.obj []) = .obj l) :
    buildStatus (.obj fs) = .ok (mkSnap l) := by
  by_cases hq : pyTruthy ((lookupField l "subtask_name").getD (.str "")) = true
  · simp [buildStatus, pyGet, getPrinterState, hp, hq, ok_bind, pure_eq_ok, mkSnap]
  · simp [buildStatus, pyGet, getPrinterState, hp, hq, ok_bind, pure_eq_ok, mkSnap]

theorem buildStatus_obj_bad_print (fs : List (String × Json))
    (h : ((lookupField fs "print").getD (.obj [])).isObj = false) :
    buildStatus (.obj fs) = .error () := by
  cases hp : (lookupField fs "print").getD (.obj []) with
  | obj l => rw [hp] at h; exact absurd h (by simp [Json.isObj])
  | _ => simp [buildStatus, pyGet, getPrinterState, hp, ok_bind, error_bind]

/-- A message is processed successfully exactly when the decoded payload is a
dict whose (possibly defaulted) `print` section is a dict; the snapshot is then
determined by that section. -/
theorem buildStatus_ok_shape (payload : Json) (st : Snapshot)
    (h : buildStatus payload = .ok st) :
    ∃ fs l, payload = .obj fs ∧
      (lookupField fs "print").getD (.obj []) = .obj l ∧ st = mkSnap l := by
  cases payload <;> try exact Except.noConfusion h
  case obj fs =>
    cases hp : (lookupField fs "print").getD (.obj []) with
    | obj l =>
        refine ⟨fs, l, rfl, hp, ?_⟩
        have h2 := (buildStatus_obj fs l hp).symm.trans h
        exact (Except.ok.inj h2).symm
    | _ =>
        rw [buildStatus_obj_bad_print fs (by simp [hp, Json.isObj])] at h
        exact Except.noConfusion h

/-- The spec's "[0,100]" range predicate on a stored snapshot's progress. -/
def progressInRange (s : Snapshot) : Bool :=
  match s.progress with
  | .num n => decide (0 ≤ n ∧ n ≤ 100)
  | _ => false

/-- C3: the status derivation from the raw gcode state code is a pure total
function with exactly the mapping RUNNING→printing, PAUSE→paused,
FINISH→finished, FAILED→failed, and everything else — the empty string, any
other string, any non-string value, and an absent field — to idle. -/
theorem c3_status_mapping :
    mapGcodeState (.str "RUNNING") = "printing" ∧
    mapGcodeState (.str "PAUSE") = "paused" ∧
    mapGcodeState (.str "FINISH") = "finished" ∧
    mapGcodeState (.str "FAILED") = "failed" ∧
    mapGcodeState (.str "") = "idle" ∧
    (∀ s : String, s ≠ "RUNNING" → s ≠ "PAUSE" → s ≠ "FINISH" → s ≠ "FAILED" →
      mapGcodeState (.str s) = "idle") ∧
    (∀ g : Json, (∀ s, g ≠ .str s) → mapGcodeState g = "idle") ∧
    getPrinterState (.obj []) = .ok "idle" := by
  refine ⟨rfl, rfl, rfl, rfl, rfl, ?_, ?_, rfl⟩
  · intro s h1 h2 h3 h4
    simp [mapGcodeState, pyEqStr, h1, h2, h3, h4]
  · intro g hg
    cases g <;> first | rfl | exact absurd rfl (hg _)

/-- C6 counterexample: a decodable dict payload that merely lacks the expected
`print` substructure is not dropped — it is processed with defaults and
overwrites the cache (here a live printing snapshot becomes an idle one), so
the cache is not left exactly as it was. -/
theorem c6_counterexample :
    onMqttMessage
      (.snap ⟨"printing", .num 50, .num 60, .num 200, some ⟨.str "Vase", .num 3, .num 10⟩⟩)
      "device/SER123/report" (some (.obj [])) ≠
      .snap ⟨"printing", .num 50, .num 60, .num 200, some ⟨.str "Vase", .num 3, .num 10⟩⟩ := by
  intro h
  exact absurd (congrArg cacheStatus h) (by decide)

/-- C6 (amended): a malformed message whose payload fails to decode, or whose
decoded structure makes a field access raise (non-dict payload, or a non-dict
`print` section), is logged and dropped: the handler returns normally and the
Telemetry Cache is left exactly as it was — no partial update. -/
theorem c6_raising_dropped (cur : Cache) (topic : String) (decoded : Option Json)
    (h : ∀ p, decoded = some p → buildStatus p = .error ()) :
    onMqttMessage cur topic decoded = cur := by
  cases decoded with
  | none => rfl
  | some p =>
      have hp := h p rfl
      simp only [onMqttMessage]
      split
      · simp [updatePrinterStatus, hp]
      · rfl

/-- C6 witness: a decodable but non-dict payload on the report topic leaves
the cache untouched. -/
theorem c6_raising_dropped_witness :
    onMqttMessage Cache.initial "device/SER123/report" (some (.str "oops")) =
      Cache.initial :=
  c6_raising_dropped _ _ _ (fun p hp => by cases hp; rfl)

/-- C7: every successfully parsed payload yields a snapshot whose status is the
mapped state code, whose progress is the payload's `mc_percent` value, and
whose current-job descriptor is present exactly when the `subtask_name` field
is truthy (for a string field: non-empty); concretely, RUNNING/42/"Vase" gives
printing/42/populated, and an empty `subtask_name` gives an absent job. -/
theorem c7_snapshot_fields :
    (∀ payload st, buildStatus payload = .ok st →
      st.status =
        mapGcodeState (jsonField (jsonField payload "print" (.obj [])) "gcode_state" (.str "")) ∧
      st.progress = jsonField (jsonField payload "print" (.obj [])) "mc_percent" (.num 0) ∧
      (st.current_job.isSome = true ↔
        pyTruthy (jsonField (jsonField payload "print" (.obj [])) "subtask_name" (.str "")) = true) ∧
      (∀ s : String,
        jsonField (jsonField payload "print" (.obj [])) "subtask_name" (.str "") = .str s →
        (st.current_job.isSome = true ↔ s ≠ ""))) ∧
    buildStatus (Json.obj [("print", Json.obj
        [("gcode_state", .str "RUNNING"), ("mc_percent", .num 42),
         ("subtask_name", .str "Vase")])]) =
      .ok ⟨"printing", .num 42, .num 0, .num 0, some ⟨.str "Vase", .num 0, .num 0⟩⟩ ∧
    buildStatus (Json.obj [("print", Json.obj
        [("gcode_state", .str "RUNNING"), ("mc_percent", .num 42),
         ("subtask_name", .str "")])]) =
      .ok ⟨"printing", .num 42, .num 0, .num 0, none⟩ := by
  refine ⟨?_, rfl, rfl⟩
  intro payload st h
  obtain ⟨fs, l, rfl, hp, rfl⟩ := buildStatus_ok_shape payload st h
  have hj : jsonField (Json.obj fs) "print" (.obj []) = .obj l := by
    simpa [jsonField] using hp
  rw [hj]
  refine ⟨rfl, rfl, ?_, ?_⟩
  · by_cases hq : pyTruthy ((lookupField l "subtask_name").getD (.str "")) = true
    · simp [mkSnap, jsonField, hq]
    · simp [mkSnap, jsonField, hq]
  · intro s hs
    have hsub : (lookupField l "subtask_name").getD (.str "") = .str s := by
      simpa [jsonField] using hs
    by_cases hse : s = ""
    · subst hse; simp [mkSnap, jsonField, hsub, pyTruthy]
    · simp [mkSnap, jsonField, hsub, pyTruthy, hse]

/-- C9 counterexample: the payload `print.mc_percent = 150` is processed
successfully and stored with progress 150, outside [0,100]. -/
theorem c9_counterexample :
    buildStatus (Json.obj [("print", Json.obj [("mc_percent", Json.num 150)])]) =
      .ok ⟨"idle", .num 150, .num 0, .num 0, none⟩ ∧
    progressInRange ⟨"idle", .num 150, .num 0, .num 0, none⟩ = false :=
  ⟨rfl, rfl⟩

/-- C9 (amended): the stored snapshot's progress is the payload's `mc_percent`
value passed through unclamped (0 when the field is absent); it lies in
[0,100] exactly when the device sent a value in that range. -/
theorem c9_progress_unclamped (payload : Json) (st : Snapshot)
    (h : buildStatus payload = .ok st) :
    st.progress = jsonField (jsonField payload "print" (.obj [])) "mc_percent" (.num 0) := by
  obtain ⟨fs, l, rfl, hp, rfl⟩ := buildStatus_ok_shape payload st h
  simp [mkSnap, jsonField, hp]

/-- C9 witness: an in-range payload value is stored as-is. -/
theorem c9_progress_unclamped_witness :
    (⟨"idle", .num 7, .num 0, .num 0, none⟩ : Snapshot).progress =
      jsonField (jsonField (Json.obj [("print", Json.obj [("mc_percent", Json.num 7)])])
        "print" (.obj [])) "mc_percent" (.num 0) :=
  c9_progress_unclamped _ _ rfl

/-- C1: in `send_print_job`, when the FTP transfer raises, `_send_print_command`
is never entered and no command is published — the trace carries neither
event — and the call fails with the transfer error. -/
theorem c1_no_command_on_transfer_failure (st : BambuState) (env : Env)
    (filePath printName jobId : String)
    (hfile : env.fileExists = true)
    (hip : strFalsy st.printer_ip = false)
    (hac : strFalsy st.access_code = false)
    (hup : env.uploadOk = false) :
    (sendPrintJob st env filePath printName jobId).1 = .error .uploadFailed ∧
    ∀ e ∈ (sendPrintJob st env filePath printName jobId).2.2,
      (∀ t c, e ≠ .published t c) ∧ ∀ f, e ≠ .commandCall f := by
  simp [sendPrintJob, uploadFileFtp, hfile, hip, hac, hup]

/-- C1 witness: a configured service with an existing file and a failing FTP
transfer fails with the transfer error and publishes nothing. -/
theorem c1_no_command_on_transfer_failure_witness :
    (sendPrintJob ⟨some "192.168.1.100", some "12345678", "SER123", none⟩
        ⟨false, 0, false, true⟩ "/tmp/model.3mf" "Vase" "job-1").1 =
      .error .uploadFailed ∧
    ∀ e ∈ (sendPrintJob ⟨some "192.168.1.100", some "12345678", "SER123", none⟩
        ⟨false, 0, false, true⟩ "/tmp/model.3mf" "Vase" "job-1").2.2,
      (∀ t c, e ≠ .published t c) ∧ ∀ f, e ≠ .commandCall f :=
  c1_no_command_on_transfer_failure _ _ _ _ _ rfl rfl rfl rfl

/-- C2, evaluated at the failing input: the service is configured, no client is
stored, and the MQTT connect attempt raises. Because `connect_mqtt` assigns
`self.mqtt_client` before connecting, the stale client survives the failure,
`_send_print_command`'s guard passes, the start command is handed to
`publish` on the unconnected client, and the submission returns the job id
instead of failing with a connectivity error. -/
theorem c2_failing_input_eval :
    (sendPrintCommand ⟨some "192.168.1.100", some "12345678", "SER123", none⟩
        ⟨true, 0, true, true⟩ "Vase" "job-1").1 = .ok () ∧
    (sendPrintCommand ⟨some "192.168.1.100", some "12345678", "SER123", none⟩
        ⟨true, 0, true, true⟩ "Vase" "job-1").2.2 =
      [.commandCall "Vase",
       .connectAttempt "192.168.1.100" 8883,
       .published "device/SER123/request" (printCommand "Vase" "job-1")] ∧
    (sendPrintJob ⟨some "192.168.1.100", some "12345678", "SER123", none⟩
        ⟨true, 0, true, true⟩ "/tmp/model.3mf" "Vase" "job-1").1 = .ok "job-1" :=
  ⟨rfl, rfl, rfl⟩

/-- C10: `connect_mqtt` returns True whenever configuration is present and the
connect call does not raise — independently of the CONNACK return code, i.e.
of whether the broker actually accepted — and returns False with no network
attempt at all when the address or access code is missing. -/
theorem c10_connect_returns_true (st : BambuState) (env : Env) :
    (strFalsy st.printer_ip = false → strFalsy st.access_code = false →
      env.connectRaises = false → (connectMqtt st env).1 = true) ∧
    ((strFalsy st.printer_ip = true ∨ strFalsy st.access_code = true) →
      (connectMqtt st env).1 = false ∧ (connectMqtt st env).2.2 = []) := by
  constructor
  · intro h1 h2 h3
    by_cases hrc : env.connectRc = 0 <;> simp [connectMqtt, h1, h2, h3, hrc]
  · intro h
    rcases h with h | h <;> simp [connectMqtt, h]

/-- C10 witness: with configuration present, a non-raising connect and a
broker that refused the session (rc = 5), `connect_mqtt` still returns True;
with a missing address it returns False and attempts nothing. -/
theorem c10_connect_returns_true_witness :
    (connectMqtt ⟨some "192.168.1.100", some "12345678", "SER123", none⟩
      ⟨false, 5, true, true⟩).1 = true ∧
    (connectMqtt ⟨none, some "12345678", "SER123", none⟩
      ⟨false, 0, true, true⟩).1 = false ∧
    (connectMqtt ⟨none, some "12345678", "SER123", none⟩
      ⟨false, 0, true, true⟩).2.2 = [] :=
  ⟨(c10_connect_returns_true _ _).1 rfl rfl rfl,
   ((c10_connect_returns_true ⟨none, some "12345678", "SER123", none⟩
      ⟨false, 0, true, true⟩).2 (Or.inl rfl)).1,
   ((c10_connect_returns_true ⟨none, some "12345678", "SER123", none⟩
      ⟨false, 0, true, true⟩).2 (Or.inl rfl)).2⟩

/-- Semaphore conservation: free permits plus in-flight checks always equal
the semaphore's initial value. -/
theorem scan_invariant (n : Nat) (s : ScanState) (h : ScanReachable n s) :
    s.available + s.inFlight = semaphoreLimit := by
  induction h with
  | init => rfl
  | step _ hs ih =>
      cases hs with
      | start hp ha => simp only at ih ⊢; omega
      | finish hf => simp only at ih ⊢; omega

/-- C5: in every reachable state of a scan — whatever the scan window size —
the number of started-but-unfinished `_check_bambu_printer` invocations is at
most 20. -/
theorem c5_inflight_bounded (n : Nat) (s : ScanState) (h : ScanReachable n s) :
    s.inFlight ≤ 20 := by
  have hinv := scan_invariant n s h
  simp [semaphoreLimit] at hinv
  omega

/-- C5 witness: the state after admitting one check in a 400-candidate scan
is reachable and within the bound. -/
theorem c5_inflight_bounded_witness :
    (⟨399, 19, 1⟩ : ScanState).inFlight ≤ 20 :=
  c5_inflight_bounded 400 _
    (ScanReachable.step ScanReachable.init
      (ScanStep.start _ (by decide) (by decide)))

theorem or_none' {α : Type} (x : Option α) : x.or none = x := by
  cases x <;> rfl

theorem foldl_processEvent (events : List DiscEvent) (acc : List BambuPrinter) :
    events.foldl processEvent acc = (events.filterMap mkPrinter).foldl addIfNew acc := by
  induction events generalizing acc with
  | nil => rfl
  | cons e es ih =>
      cases he : mkPrinter e <;>
        simp [List.foldl_cons, List.filterMap_cons, processEvent, he, ih]

theorem addIfNew_nodup (acc : List BambuPrinter) (p : BambuPrinter)
    (h : (acc.map BambuPrinter.ip).Nodup) :
    ((addIfNew acc p).map BambuPrinter.ip).Nodup := by
  unfold addIfNew
  split
  · exact h
  · rename_i hany
    rw [List.map_append]
    refine List.Nodup.append h (List.nodup_singleton _) ?_
    intro x hx hx2
    rcases List.mem_map.1 hx with ⟨q, hq, hip⟩
    have hxp : x = p.ip := by simpa using hx2
    exact hany (List.any_eq_true.2 ⟨q, hq, by simp [hip, hxp]⟩)

theorem foldl_addIfNew_nodup (l : List BambuPrinter) (acc : List BambuPrinter)
    (h : (acc.map BambuPrinter.ip).Nodup) :
    ((l.foldl addIfNew acc).map BambuPrinter.ip).Nodup := by
  induction l generalizing acc with
  | nil => exact h
  | cons p ps ih => exact ih _ (addIfNew_nodup acc p h)

theorem find?_isSome_of_mem {l : List BambuPrinter} {q : BambuPrinter} {a : String}
    (hq : q ∈ l) (hqa : (q.ip == a) = true) :
    (l.find? (fun r => r.ip == a)).isSome = true := by
  induction l with
  | nil => cases hq
  | cons x xs ih =>
      cases hfx : (x.ip == a) with
      | true => simp only [List.find?, hfx]; rfl
      | false =>
          rcases List.mem_cons.1 hq with h | h
          · rw [← h] at hfx; rw [hqa] at hfx; cases hfx
          · simp only [List.find?, hfx]; exact ih h

theorem find?_singleton_ip (p : BambuPrinter) (a : String) :
    ([p].find? (fun q => q.ip == a)) = if (p.ip == a) = true then some p else none := by
  cases hfp : (p.ip == a) <;> simp [List.find?, hfp]

theorem find?_addIfNew (acc : List BambuPrinter) (p : BambuPrinter) (a : String) :
    (addIfNew acc p).find? (fun q => q.ip == a) =
      (acc.find? (fun q => q.ip == a)).or
        (if (p.ip == a) = true then some p else none) := by
  unfold addIfNew
  split
  · rename_i hany
    by_cases hpa : (p.ip == a) = true
    · rcases List.any_eq_true.1 hany with ⟨q, hq, hqp⟩
      have h1 : q.ip = p.ip := by simpa using hqp
      have h2 : p.ip = a := by simpa using hpa
      have hqa : (q.ip == a) = true := by simp [h1, h2]
      obtain ⟨x, hx⟩ := Option.isSome_iff_exists.1 (find?_isSome_of_mem hq hqa)
      rw [hx]; rfl
    · rw [if_neg hpa]; exact (or_none' _).symm
  · rw [List.find?_append, find?_singleton_ip]

theorem find?_foldl_addIfNew (l : List BambuPrinter) (acc : List BambuPrinter) (a : String) :
    ((l.foldl addIfNew acc).find? (fun q => q.ip == a)) =
      (acc.find? (fun q => q.ip == a)).or (l.find? (fun q => q.ip == a)) := by
  induction l generalizing acc with
  | nil => exact (or_none' _).symm
  | cons p ps ih =>
      rw [List.foldl_cons, ih (addIfNew acc p), find?_addIfNew]
      cases hA : acc.find? (fun q => q.ip == a) with
      | some x => rfl
      | none =>
          cases hfp : (p.ip == a) with
          | true => simp [List.find?, hfp]
          | false => simp [List.find?, hfp]

/-- C4: for every interleaving of passive and active discovery events, the
list `discover_printers` returns has pairwise-distinct addresses, and for each
address the retained entry is the first record discovered with it. -/
theorem c4_dedup_first_seen (events : List DiscEvent) :
    ((discoverPrinters events).map BambuPrinter.ip).Nodup ∧
    ∀ a : String,
      (discoverPrinters events).find? (fun q => q.ip == a) =
        (events.filterMap mkPrinter).find? (fun q => q.ip == a) := by
  constructor
  · rw [discoverPrinters, foldl_processEvent]
    exact foldl_addIfNew_nodup _ _ (by simp)
  · intro a
    rw [discoverPrinters, foldl_processEvent, find?_foldl_addIfNew]
    rfl

/-- C8 counterexample: a record emitted by a successful scanner probe carries
the hardcoded model label "Bambu A1 mini", not "unknown". -/
theorem c8_counterexample :
    (mkPrinter (.active "192.168.1.50" 8883 true)).map BambuPrinter.model =
      some "Bambu A1 mini" ∧
    ("Bambu A1 mini" : String) ≠ "unknown" :=
  ⟨rfl, by decide⟩

/-- C8 (amended): every Device record emitted by the active scanner carries
the model label "Bambu A1 mini" and a synthesized name "Bambu-" followed by
the last dot-separated component of the device's address. -/
theorem c8_scanner_entry_shape (ip : String) (port : Nat) :
    mkPrinter (.active ip port true) =
      some ⟨"Bambu-" ++ (ip.splitOn ".").getLastD "", ip, port, "Bambu A1 mini"⟩ :=
  rfl

end BambuAgent
